import Mathlib

/-!
Shallow embedding of `src/db.py` (class `PostgresDb`), a thin data-access
gateway over a PostgreSQL connection.  Python runtime values that can flow
into the public methods are modelled by `PyObj`; each method is a pure
function returning an `Outcome`: how many cursors were created, the exact
SQL texts passed to `cursor.execute`, and the Python-level return value
(fetched rows, `None`, an error dict, or an uncaught exception).
The live connection is abstracted as a function from executed SQL text to
the rows `fetchall` would return.
-/

namespace PostgresApi

/-- Python runtime values reachable by the gateway's arguments. -/
inductive PyObj where
  | pyStr (s : String)
  | pyInt (n : Int)
  | pyBool (b : Bool)
  | pyNone
  | pyList (xs : List PyObj)
  | pyTuple (xs : List PyObj)
  | pyDict (kvs : List (PyObj × PyObj))

/-- `isinstance(x, str)`. -/
def PyObj.isStr : PyObj → Bool
  | .pyStr _ => true
  | _ => false

/-- `isinstance(x, list)`. -/
def PyObj.isList : PyObj → Bool
  | .pyList _ => true
  | _ => false

/-- `isinstance(x, tuple)`. -/
def PyObj.isTuple : PyObj → Bool
  | .pyTuple _ => true
  | _ => false

/-- `isinstance(x, dict)`. -/
def PyObj.isDict : PyObj → Bool
  | .pyDict _ => true
  | _ => false

/-- `x is None`. -/
def PyObj.isNone : PyObj → Bool
  | .pyNone => true
  | _ => false

/-- The underlying string of a `pyStr`; only consulted under an `isStr` guard. -/
def PyObj.asStr : PyObj → String
  | .pyStr s => s
  | _ => ""

/-- Elements of a `list` or `tuple`; only consulted under an `isList`/`isTuple` guard. -/
def PyObj.elems : PyObj → List PyObj
  | .pyList xs => xs
  | .pyTuple xs => xs
  | _ => []

/-- Entries of a `dict`, in insertion order; only consulted under an `isDict` guard. -/
def PyObj.dictEntries : PyObj → List (PyObj × PyObj)
  | .pyDict kvs => kvs
  | _ => []

mutual
/-- Python `repr()` on the modelled values. -/
def pyRepr : PyObj → String
  | .pyStr s => "\x27" ++ s ++ "\x27"
  | .pyInt n => toString n
  | .pyBool b => if b then "True" else "False"
  | .pyNone => "None"
  | .pyList xs => "[" ++ pyReprList xs ++ "]"
  | .pyTuple [x] => "(" ++ pyRepr x ++ ",)"
  | .pyTuple xs => "(" ++ pyReprList xs ++ ")"
  | .pyDict kvs => "\x7b" ++ pyReprDict kvs ++ "\x7d"

/-- Comma-joined `repr`s of a list of values. -/
def pyReprList : List PyObj → String
  | [] => ""
  | [x] => pyRepr x
  | x :: xs => pyRepr x ++ ", " ++ pyReprList xs

/-- Comma-joined `repr(key): repr(value)` pairs of a dict. -/
def pyReprDict : List (PyObj × PyObj) → String
  | [] => ""
  | [(k, v)] => pyRepr k ++ ": " ++ pyRepr v
  | (k, v) :: kvs => pyRepr k ++ ": " ++ pyRepr v ++ ", " ++ pyReprDict kvs
end

/-- Python `str()` (the default string representation used by `str(value)`
and f-string interpolation). -/
def pyStrOf : PyObj → String
  | .pyStr s => s
  | x => pyRepr x

/-- `sep.join` on a list of plain strings. -/
def joinString (sep : String) : List String → String
  | [] => ""
  | [s] => s
  | s :: rest => s ++ sep ++ joinString sep rest

/-- `sep.join(xs)` on Python values: raises `TypeError` at the first
element that is not a `str`. -/
def strJoin (sep : String) : List PyObj → Except String String
  | [] => .ok ""
  | [x] =>
    match x with
    | .pyStr s => .ok s
    | _ => .error "TypeError"
  | x :: y :: rest =>
    match x with
    | .pyStr s => (strJoin sep (y :: rest)).map (fun r => s ++ sep ++ r)
    | _ => .error "TypeError"

/-- A returned row, as fetched by `cursor.fetchall()`. -/
abbrev Row := List PyObj

/-- The live connection, abstracted: the rows `fetchall()` yields after
executing a given SQL text. -/
abbrev Conn := String → List Row

/-- The Python-level value a public method returns (or the exception it
lets escape). -/
inductive DbRet where
  | rows (r : List Row)
  | pyNoneRet
  | errDict (message : String)
  | raised (exn : String)

/-- The observable effect of one method call: cursors created, SQL texts
executed (in order), and the returned value. -/
structure Outcome where
  cursors : Nat
  executed : List String
  ret : DbRet

/-- Whether a returned value is a structured error dict. -/
def DbRet.isErrDict : DbRet → Bool
  | .errDict _ => true
  | _ => false

/-- Error message for a non-string `table_name` (`db.py` passim). -/
def msgTable : String := "Argument table_name (name of table) need to be type string"

/-- Error message for a bad `columns` argument (`db.py` line 40). -/
def msgColumns : String := "Argument columns (list of columns) need to be types list or tuple"

/-- Error message for a non-string `where` argument (`db.py` lines 42, 114, 149). -/
def msgWhere : String := "Argument where (condition for filtering) need to be type string"

/-- Error message for a non-dict `columns_and_values` (`db.py` lines 77, 112). -/
def msgDict : String := "Argument columns_and_values (columns and it\x27s values) need to be type dict"

/-- Error message for a non-string key of `columns_and_values` (`db.py` lines 84, 121). -/
def msgKeys : String := "All keys of columns_and_values (columns and it\x27s values) need to be type string"

/-- `PostgresDb.select` (`db.py` lines 26–62). -/
def select (conn : Conn) (table_name columns wh : PyObj) : Outcome :=
  if !table_name.isStr then
    ⟨0, [], .errDict msgTable⟩
  else if !columns.isNone && !columns.isList && !columns.isTuple then
    ⟨0, [], .errDict msgColumns⟩
  else if !wh.isNone && !wh.isStr then
    ⟨0, [], .errDict msgWhere⟩
  else
    if columns.isNone then
      let query := "SELECT * FROM " ++ table_name.asStr
      if !wh.isNone then
        let query := query ++ " WHERE " ++ wh.asStr
        ⟨1, [query], .rows (conn query)⟩
      else
        ⟨1, [query], .rows (conn query)⟩
    else
      match strJoin ", " columns.elems with
      | .error e => ⟨1, [], .raised e⟩
      | .ok cols =>
        let query := "SELECT " ++ cols ++ " FROM " ++ table_name.asStr
        if !wh.isNone then
          let query := query ++ " WHERE " ++ wh.asStr
          ⟨1, [query], .rows (conn query)⟩
        else
          ⟨1, [query], .rows (conn query)⟩

/-- The value-serialization loop inside `PostgresDb.insert`
(`db.py` lines 87–93): `str(value)` for non-strings, double-quote wrapping
for strings, in order. -/
def insertSerializeValues : List PyObj → List String
  | [] => []
  | v :: rest =>
    if !v.isStr then
      pyStrOf v :: insertSerializeValues rest
    else
      ("\"" ++ v.asStr ++ "\"") :: insertSerializeValues rest

/-- The value-serialization loop inside `PostgresDb.update`
(`db.py` lines 123–128). -/
def updateSerializeValues : List PyObj → List String
  | [] => []
  | v :: rest =>
    if !v.isStr then
      pyStrOf v :: updateSerializeValues rest
    else
      ("\"" ++ v.asStr ++ "\"") :: updateSerializeValues rest

/-- `PostgresDb.insert` (`db.py` lines 64–96). -/
def insert (table_name columns_and_values : PyObj) : Outcome :=
  if !table_name.isStr then
    ⟨0, [], .errDict msgTable⟩
  else if !columns_and_values.isDict then
    ⟨0, [], .errDict msgDict⟩
  else
    let entries := columns_and_values.dictEntries
    if !(entries.all fun kv => kv.1.isStr) then
      ⟨1, [], .errDict msgKeys⟩
    else
      match strJoin ", " (entries.map Prod.fst) with
      | .error e => ⟨1, [], .raised e⟩
      | .ok cols =>
        let values := joinString ", " (insertSerializeValues (entries.map Prod.snd))
        let query := "INSERT INTO " ++ table_name.asStr ++ " (" ++ cols
          ++ ") VALUES (" ++ values ++ ")"
        ⟨1, [query], .pyNoneRet⟩

/-- `PostgresDb.update` (`db.py` lines 98–134). -/
def update (table_name columns_and_values wh : PyObj) : Outcome :=
  if !table_name.isStr then
    ⟨0, [], .errDict msgTable⟩
  else if !columns_and_values.isDict then
    ⟨0, [], .errDict msgDict⟩
  else if !wh.isNone && !wh.isStr then
    ⟨0, [], .errDict msgWhere⟩
  else
    let entries := columns_and_values.dictEntries
    if !(entries.all fun kv => kv.1.isStr) then
      ⟨1, [], .errDict msgKeys⟩
    else
      let values := updateSerializeValues (entries.map Prod.snd)
      let setClause := joinString ", "
        (((entries.map Prod.fst).zip values).map fun cv => pyStrOf cv.1 ++ "=" ++ cv.2)
      let query := "UPDATE " ++ table_name.asStr ++ " SET " ++ setClause
      let query := if !wh.isNone then query ++ " WHERE " ++ wh.asStr else query
      ⟨1, [query], .pyNoneRet⟩

/-- `PostgresDb.delete` (`db.py` lines 136–154); `where` is a required
positional parameter with no default. -/
def delete (table_name wh : PyObj) : Outcome :=
  if !table_name.isStr then
    ⟨0, [], .errDict msgTable⟩
  else if !wh.isStr then
    ⟨0, [], .errDict msgWhere⟩
  else
    let query := "DELETE FROM " ++ table_name.asStr ++ " WHERE " ++ wh.asStr
    ⟨1, [query], .pyNoneRet⟩

/-- `PostgresDb.clear_table` (`db.py` lines 156–171). -/
def clear_table (table_name : PyObj) : Outcome :=
  if !table_name.isStr then
    ⟨0, [], .errDict msgTable⟩
  else
    let query := "DELETE FROM " ++ table_name.asStr
    ⟨1, [query], .pyNoneRet⟩

/-- The class-level state of `PostgresDb` (`db.py` lines 9–10):
`_instance`/`_connection` (identified by a numeric handle id), together
with the observable effects of `psycopg2.connect` calls. -/
structure GatewayState where
  instanceId : Option Nat
  connectionId : Option Nat
  connectCalls : Nat
  autocommitOn : Bool

/-- The state before the class is first constructed. -/
def initialGatewayState : GatewayState := ⟨none, none, 0, false⟩

/-- `PostgresDb.__new__` (`db.py` lines 12–24): on first construction,
open one connection with autocommit enabled; afterwards return the
existing instance (and hence the existing connection) unchanged. -/
def constructGateway (s : GatewayState) : GatewayState × Nat :=
  match s.instanceId with
  | none =>
    let handle := s.connectCalls
    ({ instanceId := some handle, connectionId := some handle,
       connectCalls := s.connectCalls + 1, autocommitOn := true }, handle)
  | some handle => (s, handle)

/-- The state and returned instance after `n` successive constructions
of `PostgresDb()` from the initial state. -/
def constructN : Nat → GatewayState × Option Nat
  | 0 => (initialGatewayState, none)
  | n + 1 =>
    let s := (constructN n).1
    let r := constructGateway s
    (r.1, some r.2)

theorem isStr_pyStr (s : String) : (PyObj.pyStr s).isStr = true := rfl

theorem isDict_pyDict (kvs : List (PyObj × PyObj)) : (PyObj.pyDict kvs).isDict = true := rfl

theorem dictEntries_pyDict (kvs : List (PyObj × PyObj)) :
    (PyObj.pyDict kvs).dictEntries = kvs := rfl

theorem asStr_pyStr (s : String) : (PyObj.pyStr s).asStr = s := rfl

theorem isNone_pyNone : PyObj.pyNone.isNone = true := rfl

theorem isNone_pyStr (s : String) : (PyObj.pyStr s).isNone = false := rfl

/-- An `isStr` value is a `pyStr`. -/
theorem isStr_exists {x : PyObj} (h : x.isStr = true) : ∃ s, x = .pyStr s := by
  cases x <;> simp_all [PyObj.isStr]

/-- Joining a list of values that are all Python strings never raises and
agrees with the plain string join of their contents. -/
theorem strJoin_all_str (sep : String) :
    ∀ xs : List PyObj, (xs.all PyObj.isStr) = true →
      strJoin sep xs = .ok (joinString sep (xs.map PyObj.asStr))
  | [], _ => rfl
  | [x], h => by
    obtain ⟨s, rfl⟩ := isStr_exists (by simpa using h)
    rfl
  | x :: y :: xs, h => by
    rw [List.all_cons, Bool.and_eq_true] at h
    obtain ⟨hx, hrest⟩ := h
    obtain ⟨s, rfl⟩ := isStr_exists hx
    have ih := strJoin_all_str sep (y :: xs) hrest
    simp [strJoin, ih, Except.map, joinString, asStr_pyStr]

/-- The insert-side serialization loop, written as a map. -/
theorem insertSerializeValues_eq_map (vs : List PyObj) :
    insertSerializeValues vs
      = vs.map (fun v => if v.isStr then "\"" ++ v.asStr ++ "\"" else pyStrOf v) := by
  induction vs with
  | nil => rfl
  | cons v rest ih =>
    cases hv : v.isStr <;> simp [insertSerializeValues, hv, ih]

/-- The update-side serialization loop, written as a map. -/
theorem updateSerializeValues_eq_map (vs : List PyObj) :
    updateSerializeValues vs
      = vs.map (fun v => if v.isStr then "\"" ++ v.asStr ++ "\"" else pyStrOf v) := by
  induction vs with
  | nil => rfl
  | cons v rest ih =>
    cases hv : v.isStr <;> simp [updateSerializeValues, hv, ih]

/-- The zip of dict keys with update-serialized values, as a single map
over the entries. -/
theorem setPairs_eq (entries : List (PyObj × PyObj)) :
    ((entries.map Prod.fst).zip (updateSerializeValues (entries.map Prod.snd))).map
        (fun cv => pyStrOf cv.1 ++ "=" ++ cv.2)
      = entries.map (fun kv => pyStrOf kv.1 ++ "="
          ++ (if kv.2.isStr then "\"" ++ kv.2.asStr ++ "\"" else pyStrOf kv.2)) := by
  induction entries with
  | nil => rfl
  | cons kv rest ih =>
    cases hv : kv.2.isStr <;>
      simp [updateSerializeValues, hv, List.zip_cons_cons, ih]

/-- C1: for every string table name `t`,
`select(t, columns=["a","b"], where="x=1")` executes exactly the SQL text
`SELECT a, b FROM t WHERE x=1` (columns comma-joined in given order), and
`select(t)` with columns and where both absent executes exactly
`SELECT * FROM t`; in both cases it returns all fetched rows as an ordered
sequence. -/
theorem claim1_select_sql (conn : Conn) (t : String) :
    select conn (.pyStr t) (.pyList [.pyStr "a", .pyStr "b"]) (.pyStr "x=1")
        = ⟨1, ["SELECT a, b FROM " ++ t ++ " WHERE x=1"],
            .rows (conn ("SELECT a, b FROM " ++ t ++ " WHERE x=1"))⟩ ∧
    select conn (.pyStr t) .pyNone .pyNone
        = ⟨1, ["SELECT * FROM " ++ t], .rows (conn ("SELECT * FROM " ++ t))⟩ := by
  constructor
  · simp [select, PyObj.isStr, PyObj.isNone, PyObj.isList, PyObj.isTuple, PyObj.elems,
      PyObj.asStr, strJoin, Except.map, String.append_assoc]
  · simp [select, PyObj.isStr, PyObj.isNone, PyObj.asStr]

/-- C5: for every string table name `t`, `clear_table(t)` executes exactly
`DELETE FROM t` with no WHERE clause. -/
theorem claim5_clear_table_sql (t : String) :
    clear_table (.pyStr t) = ⟨1, ["DELETE FROM " ++ t], .pyNoneRet⟩ := by
  simp [clear_table, PyObj.isStr, PyObj.asStr]

/-- C9: the value-serialization computed inside `update` is equal
element-for-element to the one computed inside `insert` for the same
value list. -/
theorem claim9_serialization_equivalence :
    ∀ vs : List PyObj, updateSerializeValues vs = insertSerializeValues vs := by
  intro vs
  induction vs with
  | nil => rfl
  | cons v rest ih =>
    cases hv : v.isStr <;>
      simp [updateSerializeValues, insertSerializeValues, hv, ih]

/-- C10: `select` treats an empty columns list differently from an absent
one — for every string table name `t`, `select(t, columns=[])` passes the
type check and executes `SELECT  FROM t` with an empty column list, which
is not `SELECT * FROM t`. -/
theorem claim10_empty_columns (conn : Conn) (t : String) :
    select conn (.pyStr t) (.pyList []) .pyNone
        = ⟨1, ["SELECT  FROM " ++ t], .rows (conn ("SELECT  FROM " ++ t))⟩ ∧
    ((select (fun _ => []) (.pyStr "t") (.pyList []) .pyNone).executed
        == ["SELECT * FROM t"]) = false := by
  constructor
  · simp [select, PyObj.isStr, PyObj.isNone, PyObj.isList, PyObj.elems, PyObj.asStr, strJoin]
  · rfl

/-- C2: for every string table name `t` and dict of string keys to values,
`insert` serializes non-string values by their default string
representation and string values by double-quote wrapping with no
escaping, and executes exactly
`INSERT INTO t (<cols>) VALUES (<vals>)` with both lists in insertion
order, positionally aligned; in particular
`insert(t, \x7b"a":1,"b":"x"\x7d)` executes exactly
`INSERT INTO t (a, b) VALUES (1, "x")`. -/
theorem claim2_insert_sql (t : String) (entries : List (PyObj × PyObj))
    (hk : (entries.all fun kv => kv.1.isStr) = true) :
    insert (.pyStr t) (.pyDict entries)
        = ⟨1, ["INSERT INTO " ++ t ++ " ("
              ++ joinString ", " (entries.map fun kv => kv.1.asStr)
              ++ ") VALUES ("
              ++ joinString ", " (entries.map fun kv =>
                   if kv.2.isStr then "\"" ++ kv.2.asStr ++ "\"" else pyStrOf kv.2)
              ++ ")"], .pyNoneRet⟩ ∧
    (insert (.pyStr "t") (.pyDict [(.pyStr "a", .pyInt 1), (.pyStr "b", .pyStr "x")])).executed
        = ["INSERT INTO t (a, b) VALUES (1, \"x\")"] := by
  refine ⟨?_, rfl⟩
  have hall : ((entries.map Prod.fst).all PyObj.isStr) = true := by
    simpa [List.all_map, Function.comp] using hk
  have hjoin := strJoin_all_str ", " (entries.map Prod.fst) hall
  simp [insert, isStr_pyStr, isDict_pyDict, dictEntries_pyDict, asStr_pyStr, hk, hjoin,
    insertSerializeValues_eq_map, List.map_map, Function.comp_def]

/-- Witness for C2 at the concrete dict of the spec's example. -/
theorem claim2_insert_sql_witness :
    ([((PyObj.pyStr "a" : PyObj), (PyObj.pyInt 1 : PyObj)), (.pyStr "b", .pyStr "x")].all
        fun kv => kv.1.isStr) = true ∧
    insert (.pyStr "t") (.pyDict [(.pyStr "a", .pyInt 1), (.pyStr "b", .pyStr "x")])
        = ⟨1, ["INSERT INTO t (a, b) VALUES (1, \"x\")"], .pyNoneRet⟩ :=
  ⟨rfl, (claim2_insert_sql "t" [(.pyStr "a", .pyInt 1), (.pyStr "b", .pyStr "x")] rfl).1⟩

/-- C3: for every string table name `t` and dict of string keys to values,
`update` builds `UPDATE t SET col1=val1, col2=val2, ...` pairing columns
with serialized values positionally in mapping order, appends
` WHERE <where>` exactly when `where` is given, and executes it; in
particular `update(t, \x7b"a":2\x7d, where="id=5")` executes exactly
`UPDATE t SET a=2 WHERE id=5` and `update(t, \x7b"a":2\x7d)` executes
exactly `UPDATE t SET a=2`. -/
theorem claim3_update_sql (t w : String) (entries : List (PyObj × PyObj))
    (hk : (entries.all fun kv => kv.1.isStr) = true) :
    update (.pyStr t) (.pyDict entries) (.pyStr w)
        = ⟨1, ["UPDATE " ++ t ++ " SET "
              ++ joinString ", " (entries.map fun kv => pyStrOf kv.1 ++ "="
                   ++ (if kv.2.isStr then "\"" ++ kv.2.asStr ++ "\"" else pyStrOf kv.2))
              ++ " WHERE " ++ w], .pyNoneRet⟩ ∧
    update (.pyStr t) (.pyDict entries) .pyNone
        = ⟨1, ["UPDATE " ++ t ++ " SET "
              ++ joinString ", " (entries.map fun kv => pyStrOf kv.1 ++ "="
                   ++ (if kv.2.isStr then "\"" ++ kv.2.asStr ++ "\"" else pyStrOf kv.2))],
            .pyNoneRet⟩ ∧
    (update (.pyStr "t") (.pyDict [(.pyStr "a", .pyInt 2)]) (.pyStr "id=5")).executed
        = ["UPDATE t SET a=2 WHERE id=5"] ∧
    (update (.pyStr "t") (.pyDict [(.pyStr "a", .pyInt 2)]) .pyNone).executed
        = ["UPDATE t SET a=2"] := by
  refine ⟨?_, ?_, rfl, rfl⟩ <;>
    simp [update, isStr_pyStr, isDict_pyDict, isNone_pyStr, isNone_pyNone,
      dictEntries_pyDict, asStr_pyStr, hk, setPairs_eq]

/-- Witness for C3 at the concrete dict of the spec's example. -/
theorem claim3_update_sql_witness :
    ([((PyObj.pyStr "a" : PyObj), (PyObj.pyInt 2 : PyObj))].all fun kv => kv.1.isStr) = true ∧
    update (.pyStr "t") (.pyDict [(.pyStr "a", .pyInt 2)]) (.pyStr "id=5")
        = ⟨1, ["UPDATE t SET a=2 WHERE id=5"], .pyNoneRet⟩ ∧
    update (.pyStr "t") (.pyDict [(.pyStr "a", .pyInt 2)]) .pyNone
        = ⟨1, ["UPDATE t SET a=2"], .pyNoneRet⟩ :=
  ⟨rfl, (claim3_update_sql "t" "id=5" [(.pyStr "a", .pyInt 2)] rfl).1,
   (claim3_update_sql "t" "id=5" [(.pyStr "a", .pyInt 2)] rfl).2.1⟩

/-- C4: for every string table name `t` and string filter `w`,
`delete(t, w)` executes exactly `DELETE FROM t WHERE w`; `where` is a
required parameter with no default (reflected in the embedding's
signature), and a non-string `where` returns the error descriptor
without executing. -/
theorem claim4_delete_sql (t w : String) :
    delete (.pyStr t) (.pyStr w)
        = ⟨1, ["DELETE FROM " ++ t ++ " WHERE " ++ w], .pyNoneRet⟩ ∧
    (∀ w' : PyObj, w'.isStr = false →
      delete (.pyStr t) w' = ⟨0, [], .errDict msgWhere⟩) := by
  constructor
  · simp [delete, PyObj.isStr, PyObj.asStr]
  · intro w' hw'
    simp [delete, isStr_pyStr, hw']

/-- Witness for C4 at `t`, `id=5` and a `None` filter. -/
theorem claim4_delete_sql_witness :
    delete (.pyStr "t") (.pyStr "id=5")
        = ⟨1, ["DELETE FROM t WHERE id=5"], .pyNoneRet⟩ ∧
    delete (.pyStr "t") .pyNone = ⟨0, [], .errDict msgWhere⟩ :=
  ⟨(claim4_delete_sql "t" "id=5").1, (claim4_delete_sql "t" "id=5").2 .pyNone rfl⟩

/-- C7: passing a non-string table name to any of the five operations
returns the `table_name` error descriptor and performs no execution —
no cursor is created and no SQL text is executed. -/
theorem claim7_table_name_guard (conn : Conn) (t c w f : PyObj) (h : t.isStr = false) :
    select conn t c w = ⟨0, [], .errDict msgTable⟩ ∧
    insert t f = ⟨0, [], .errDict msgTable⟩ ∧
    update t f w = ⟨0, [], .errDict msgTable⟩ ∧
    delete t w = ⟨0, [], .errDict msgTable⟩ ∧
    clear_table t = ⟨0, [], .errDict msgTable⟩ := by
  refine ⟨?_, ?_, ?_, ?_, ?_⟩ <;>
    simp [select, insert, update, delete, clear_table, h]

/-- Witness for C7 with an integer table name. -/
theorem claim7_table_name_guard_witness :
    select (fun _ => []) (.pyInt 7) .pyNone .pyNone = ⟨0, [], .errDict msgTable⟩ ∧
    insert (.pyInt 7) .pyNone = ⟨0, [], .errDict msgTable⟩ ∧
    update (.pyInt 7) .pyNone .pyNone = ⟨0, [], .errDict msgTable⟩ ∧
    delete (.pyInt 7) .pyNone = ⟨0, [], .errDict msgTable⟩ ∧
    clear_table (.pyInt 7) = ⟨0, [], .errDict msgTable⟩ :=
  claim7_table_name_guard (fun _ => []) (.pyInt 7) .pyNone .pyNone .pyNone rfl

/-- C6 fails as stated: `columns=[1]` violates the stated precondition
that columns be a sequence of strings, yet `select` raises a `TypeError`
from the string join instead of returning a structured error value. -/
theorem claim6_counterexample :
    (select (fun _ => []) (.pyStr "t") (.pyList [.pyInt 1]) .pyNone).ret
        = .raised "TypeError" ∧
    (select (fun _ => []) (.pyStr "t") (.pyList [.pyInt 1]) .pyNone).ret.isErrDict
        = false :=
  ⟨rfl, rfl⟩

/-- C6 (amended): every violation of the argument checks the code
performs — non-string table name, columns neither absent nor list nor
tuple, non-string where, non-dict fields, non-string key in fields —
returns a structured error-dict value and executes nothing; element
types inside a given columns list or tuple are not checked. -/
theorem claim6_validation_amended :
    (∀ (conn : Conn) (t c w : PyObj), t.isStr = false →
      select conn t c w = ⟨0, [], .errDict msgTable⟩ ∧
      insert t c = ⟨0, [], .errDict msgTable⟩ ∧
      update t c w = ⟨0, [], .errDict msgTable⟩ ∧
      delete t w = ⟨0, [], .errDict msgTable⟩ ∧
      clear_table t = ⟨0, [], .errDict msgTable⟩) ∧
    (∀ (conn : Conn) (t c w : PyObj), t.isStr = true → c.isNone = false →
      c.isList = false → c.isTuple = false →
      select conn t c w = ⟨0, [], .errDict msgColumns⟩) ∧
    (∀ (conn : Conn) (t c w : PyObj), t.isStr = true →
      (c.isNone || c.isList || c.isTuple) = true → w.isNone = false → w.isStr = false →
      select conn t c w = ⟨0, [], .errDict msgWhere⟩) ∧
    (∀ t f : PyObj, t.isStr = true → f.isDict = false →
      insert t f = ⟨0, [], .errDict msgDict⟩) ∧
    (∀ t f : PyObj, t.isStr = true → f.isDict = true →
      (f.dictEntries.all fun kv => kv.1.isStr) = false →
      insert t f = ⟨1, [], .errDict msgKeys⟩) ∧
    (∀ t f w : PyObj, t.isStr = true → f.isDict = false →
      update t f w = ⟨0, [], .errDict msgDict⟩) ∧
    (∀ t f w : PyObj, t.isStr = true → f.isDict = true →
      w.isNone = false → w.isStr = false →
      update t f w = ⟨0, [], .errDict msgWhere⟩) ∧
    (∀ t f w : PyObj, t.isStr = true → f.isDict = true →
      (w.isNone || w.isStr) = true →
      (f.dictEntries.all fun kv => kv.1.isStr) = false →
      update t f w = ⟨1, [], .errDict msgKeys⟩) ∧
    (∀ t w : PyObj, t.isStr = true → w.isStr = false →
      delete t w = ⟨0, [], .errDict msgWhere⟩) := by
  refine ⟨?_, ?_, ?_, ?_, ?_, ?_, ?_, ?_, ?_⟩
  · intro conn t c w h
    refine ⟨?_, ?_, ?_, ?_, ?_⟩ <;> simp [select, insert, update, delete, clear_table, h]
  · intro conn t c w ht hc1 hc2 hc3
    simp [select, ht, hc1, hc2, hc3]
  · intro conn t c w ht hc hw1 hw2
    rcases Bool.or_eq_true_iff.mp hc with hc' | hc'
    · rcases Bool.or_eq_true_iff.mp hc' with hc'' | hc'' <;> simp [select, ht, hc'', hw1, hw2]
    · simp [select, ht, hc', hw1, hw2]
  · intro t f ht hf
    simp [insert, ht, hf]
  · intro t f ht hf hkeys
    simp [insert, ht, hf, hkeys]
  · intro t f w ht hf
    simp [update, ht, hf]
  · intro t f w ht hf hw1 hw2
    simp [update, ht, hf, hw1, hw2]
  · intro t f w ht hf hw hkeys
    rcases Bool.or_eq_true_iff.mp hw with hw' | hw' <;> simp [update, ht, hf, hw', hkeys]
  · intro t w ht hw
    simp [delete, ht, hw]

/-- Witness for the amended C6, one concrete instance per conjunct. -/
theorem claim6_validation_amended_witness :
    select (fun _ => []) (.pyInt 0) .pyNone .pyNone = ⟨0, [], .errDict msgTable⟩ ∧
    select (fun _ => []) (.pyStr "t") (.pyInt 3) .pyNone = ⟨0, [], .errDict msgColumns⟩ ∧
    select (fun _ => []) (.pyStr "t") .pyNone (.pyInt 3) = ⟨0, [], .errDict msgWhere⟩ ∧
    insert (.pyStr "t") (.pyInt 3) = ⟨0, [], .errDict msgDict⟩ ∧
    insert (.pyStr "t") (.pyDict [(.pyInt 3, .pyInt 4)]) = ⟨1, [], .errDict msgKeys⟩ ∧
    update (.pyStr "t") (.pyInt 3) .pyNone = ⟨0, [], .errDict msgDict⟩ ∧
    update (.pyStr "t") (.pyDict []) (.pyInt 3) = ⟨0, [], .errDict msgWhere⟩ ∧
    update (.pyStr "t") (.pyDict [(.pyInt 3, .pyInt 4)]) .pyNone = ⟨1, [], .errDict msgKeys⟩ ∧
    delete (.pyStr "t") .pyNone = ⟨0, [], .errDict msgWhere⟩ :=
  ⟨(claim6_validation_amended.1 (fun _ => []) (.pyInt 0) .pyNone .pyNone rfl).1,
   claim6_validation_amended.2.1 (fun _ => []) (.pyStr "t") (.pyInt 3) .pyNone rfl rfl rfl rfl,
   claim6_validation_amended.2.2.1 (fun _ => []) (.pyStr "t") .pyNone (.pyInt 3) rfl rfl rfl rfl,
   claim6_validation_amended.2.2.2.1 (.pyStr "t") (.pyInt 3) rfl rfl,
   claim6_validation_amended.2.2.2.2.1 (.pyStr "t") (.pyDict [(.pyInt 3, .pyInt 4)]) rfl rfl rfl,
   claim6_validation_amended.2.2.2.2.2.1 (.pyStr "t") (.pyInt 3) .pyNone rfl rfl,
   claim6_validation_amended.2.2.2.2.2.2.1 (.pyStr "t") (.pyDict []) (.pyInt 3) rfl rfl rfl rfl,
   claim6_validation_amended.2.2.2.2.2.2.2.1 (.pyStr "t") (.pyDict [(.pyInt 3, .pyInt 4)])
     .pyNone rfl rfl rfl rfl,
   claim6_validation_amended.2.2.2.2.2.2.2.2 (.pyStr "t") .pyNone rfl rfl⟩

/-- C8: constructing the gateway any positive number of times yields the
same instance and the same underlying connection handle; the connection
is opened exactly once, with autocommit enabled, and any construction
from an already-initialized state returns the existing handle with the
state unchanged. -/
theorem claim8_singleton_connection :
    (∀ n : Nat, 1 ≤ n →
      (constructN n).2 = some 0 ∧
      (constructN n).1.instanceId = some 0 ∧
      (constructN n).1.connectionId = some 0 ∧
      (constructN n).1.connectCalls = 1 ∧
      (constructN n).1.autocommitOn = true) ∧
    (∀ (s : GatewayState) (h : Nat), s.instanceId = some h →
      constructGateway s = (s, h)) := by
  constructor
  · intro n
    induction n with
    | zero => intro h; exact absurd h (by decide)
    | succ m ih =>
      intro _
      cases m with
      | zero => exact ⟨rfl, rfl, rfl, rfl, rfl⟩
      | succ k =>
        obtain ⟨-, hinst, hconn, hcalls, hauto⟩ := ih (Nat.le_add_left 1 k)
        have hgw : constructGateway (constructN (k + 1)).1 = ((constructN (k + 1)).1, 0) := by
          simp [constructGateway, hinst]
        have hstep : constructN (k + 1 + 1)
            = ((constructGateway (constructN (k + 1)).1).1,
               some (constructGateway (constructN (k + 1)).1).2) := rfl
        rw [hstep, hgw]
        exact ⟨rfl, hinst, hconn, hcalls, hauto⟩
  · intro s h hs
    simp [constructGateway, hs]

/-- Witness for C8: two constructions, and a resume from a populated
state. -/
theorem claim8_singleton_connection_witness :
    ((constructN 2).2 = some 0 ∧
     (constructN 2).1.instanceId = some 0 ∧
     (constructN 2).1.connectionId = some 0 ∧
     (constructN 2).1.connectCalls = 1 ∧
     (constructN 2).1.autocommitOn = true) ∧
    constructGateway ⟨some 5, some 5, 1, true⟩ = (⟨some 5, some 5, 1, true⟩, 5) :=
  ⟨claim8_singleton_connection.1 2 (by decide),
   claim8_singleton_connection.2 ⟨some 5, some 5, 1, true⟩ 5 rfl⟩

end PostgresApi
